import Mathlib

/-!
Verification model of the Prontuario_Mixtas core analysis pipeline.

The Python source computes with IEEE floats; the model uses exact arithmetic
over an arbitrary linear ordered field K, so every float expression of the
source is translated literally (the numeric literal 1e-9 becomes
1/1000000000, and so on).  All pipeline functions are duck-typed in the
source: each Lean input record carries exactly the attributes the
corresponding Python function reads, with an Option field wherever the
source guards the read with hasattr or an AttributeError handler.
-/

namespace Prontuario

/-- Dictionary CLASS_LIMITS_FLANGE_COMP of core/classification_ec3.py
(lines 9-13): c/t class limits for outstand flanges under pure compression.
Only the keys 1, 2, 3 are ever read; other keys answer 0. -/
def CLASS_LIMITS_FLANGE_COMP {K : Type*} [LinearOrderedField K] (k : ℕ) : K :=
  if k = 1 then 9 else if k = 2 then 10 else if k = 3 then 14 else 0

/-- Dictionary CLASS_LIMITS_WEB_COMP of core/classification_ec3.py
(lines 15-19): c/t class limits for internal compression parts. -/
def CLASS_LIMITS_WEB_COMP {K : Type*} [LinearOrderedField K] (k : ℕ) : K :=
  if k = 1 then 33 else if k = 2 then 38 else if k = 3 then 42 else 0

/-- The limit-table selection of get_element_class (lines 23-26):
outstand elements use the flange table, every other element_type string
falls to the internal (web) table. -/
def classLimits {K : Type*} [LinearOrderedField K] (element_type : String) : ℕ → K :=
  if element_type = "outstand" then CLASS_LIMITS_FLANGE_COMP else CLASS_LIMITS_WEB_COMP

/-- get_element_class of core/classification_ec3.py (lines 21-35):
compares ratio_ct against the three cumulative thresholds limit * epsilon
and returns the first class whose threshold is not exceeded, else 4.
The local variable named limits in the source is the classLimits selection. -/
def get_element_class {K : Type*} [LinearOrderedField K]
    (ratio_ct epsilon : K) (element_type : String) : ℕ :=
  if ratio_ct ≤ classLimits element_type 1 * epsilon then 1
  else if ratio_ct ≤ classLimits element_type 2 * epsilon then 2
  else if ratio_ct ≤ classLimits element_type 3 * epsilon then 3
  else 4

/-!
Stress analyzer: core/stress_analysis.py, calculate_navier_stress.
-/

/-- The neutral-axis value stored in results of calculate_navier_stress:
Python stores None, a finite float, or float(inf). -/
inductive YNa (K : Type*) where
  | null : YNa K
  | fin : K → YNa K
  | posInf : YNa K
  deriving DecidableEq

/-- The attributes of a shape object read by the stress loop (lines 64-91):
y_min and y_max (y_ext = none models an object missing them, which raises
AttributeError and makes the loop skip the shape with a printed warning),
and the material tag stored into each stress record. -/
structure StressInput (K : Type*) where
  y_ext : Option (K × K)
  material : String
  deriving DecidableEq

/-- One value of the stresses dict: ordinate, equivalent stress, material. -/
structure StressPoint (K : Type*) where
  y : K
  sigma_eq : K
  mat : String
  deriving DecidableEq

/-- The homog_props dict argument: dict.get returns None for missing keys,
modelled by Option fields. -/
structure HomogProps (K : Type*) where
  total_area : Option K
  inertia_x : Option K
  centroid_y : Option K
  deriving DecidableEq

/-- The results dict of calculate_navier_stress. -/
structure StressResult (K : Type*) where
  y_na : YNa K
  stresses : List (String × StressPoint K)
  error : Option String
  deriving DecidableEq

/-- Error message of line 28. -/
def msgFaltanProps : String := "Faltan propiedades homogeneizadas (A, Ix, yG)."

/-- Error message of line 31. -/
def msgAreaCero : String := "Área homogeneizada es prácticamente cero."

/-- Error message of line 35. -/
def msgInerciaNula : String := "Inercia X homogeneizada nula con momento aplicado."

/-- The stress loop of lines 62-93, mirroring
for i, shape in enumerate(shapes) with its running index.  A shape whose
y_min/y_max are missing raises AttributeError and is skipped (line 86);
every other shape appends its ymin and ymax entries in order. -/
def stressEntries {K : Type*} [LinearOrderedField K]
    (Mx_ed Iy_h y_G sigma_axial : K) : ℕ → List (StressInput K) →
    List (String × StressPoint K)
  | _, [] => []
  | i, sh :: rest =>
    (match sh.y_ext with
     | none => []
     | some (y_min_shape, y_max_shape) =>
       let sigma_min := if 1 / 1000000000 < |Iy_h| then
           sigma_axial - Mx_ed / Iy_h * (y_min_shape - y_G) else sigma_axial
       let sigma_max := if 1 / 1000000000 < |Iy_h| then
           sigma_axial - Mx_ed / Iy_h * (y_max_shape - y_G) else sigma_axial
       [("shape_" ++ toString (i + 1) ++ "_ymin",
          ⟨y_min_shape, sigma_min, sh.material⟩),
        ("shape_" ++ toString (i + 1) ++ "_ymax",
          ⟨y_max_shape, sigma_max, sh.material⟩)])
      ++ stressEntries Mx_ed Iy_h y_G sigma_axial (i + 1) rest

/-- calculate_navier_stress of core/stress_analysis.py (lines 4-94).
The Lean function is total: the source never raises either (the
ZeroDivisionError handler of line 50 is unreachable because its branch has
abs(Mx_ed) > 1e-9 and abs(A_h) >= 1e-9, and the per-shape handlers catch
everything the loop can raise). -/
def calculate_navier_stress {K : Type*} [LinearOrderedField K]
    (N_ed Mx_ed : K) (shapes : List (StressInput K)) (homog_props : HomogProps K) :
    StressResult K :=
  match homog_props.total_area, homog_props.inertia_x, homog_props.centroid_y with
  | some A_h, some Iy_h, some y_G =>
    if |A_h| < 1 / 1000000000 then ⟨YNa.null, [], some msgAreaCero⟩
    else if |Iy_h| < 1 / 1000000000 ∧ 1 / 1000000000 < |Mx_ed| then
      ⟨YNa.null, [], some msgInerciaNula⟩
    else
      -- line 39: sigma_axial = N_ed / A_h if A_h != 0 else 0
      let sigma_axial := if A_h ≠ 0 then N_ed / A_h else 0
      -- lines 45-60: neutral fiber
      let y_na : YNa K :=
        if 1 / 1000000000 < |Mx_ed| then
          YNa.fin (y_G + N_ed * Iy_h / (Mx_ed * A_h))
        else if |N_ed| < 1 / 1000000000 then YNa.null
        else if N_ed ≠ 0 then YNa.posInf else YNa.null
      ⟨y_na, stressEntries Mx_ed Iy_h y_G sigma_axial 0 shapes, none⟩
  | _, _, _ => ⟨YNa.null, [], some msgFaltanProps⟩

/-!
Section properties aggregator: core/section_analysis.py,
calculate_section_properties.
-/

/-- The attributes a shape must expose to the aggregator (lines 37-46):
area, cg_x, cg_y, inertia_x_local, and optionally inertia_y_local (the
source substitutes 0.0 when the attribute is missing or None) and
optionally a material tag (the source tests hasattr before reading it).
Objects missing one of the four required attributes make the source
re-raise AttributeError; the input type requires them instead. -/
structure SectionInput (K : Type*) where
  area : K
  cg_x : K
  cg_y : K
  inertia_x_local : K
  inertia_y_local : Option K
  material : Option String
  deriving DecidableEq

/-- One element of the processed_shapes list (line 66). -/
structure ProcShape (K : Type*) where
  A : K
  x : K
  y : K
  Ix : K
  Iy : K
  deriving DecidableEq

/-- The returned properties dict. -/
structure SectionProperties (K : Type*) where
  total_area : K
  centroid_x : K
  centroid_y : K
  inertia_x : K
  inertia_y : K
  deriving DecidableEq

/-- Message of line 25 (source quotes around modular_ratio dropped). -/
def msgRequiereRatio : String := "Se requiere modular_ratio para homogeneizar."

/-- Message of line 27 (source quotes around modular_ratio dropped). -/
def msgRatioPositivo : String :=
  "modular_ratio debe ser positivo para homogeneizar."

/-- Lines 39-58: read the attributes of one shape and, when homogenize is
on and the material is concrete, divide area and both local inertias by
the modular ratio n.  The inner modular_ratio == 0 re-check of line 54 is
unreachable because the caller already rejected n <= 0. -/
def processShape {K : Type*} [LinearOrderedField K]
    (homogenize : Bool) (n : K) (s : SectionInput K) : ProcShape K :=
  let Iy_local := s.inertia_y_local.getD 0
  if homogenize ∧ s.material = some "concrete" then
    ⟨s.area / n, s.cg_x, s.cg_y, s.inertia_x_local / n, Iy_local / n⟩
  else
    ⟨s.area, s.cg_x, s.cg_y, s.inertia_x_local, Iy_local⟩

/-- Lines 64-96: keep the shapes whose processed area exceeds the 1e-9
tolerance, accumulate area and first moments, return all zeros for a
negligible total area, otherwise compute the centroid and the global
inertias by the parallel-axis theorem. -/
def sectionCore {K : Type*} [LinearOrderedField K]
    (procs0 : List (ProcShape K)) : SectionProperties K :=
  let procs := procs0.filter fun p => decide (1 / 1000000000 < |p.A|)
  let total_area := (procs.map fun p => p.A).sum
  let moment_x := (procs.map fun p => p.A * p.y).sum
  let moment_y := (procs.map fun p => p.A * p.x).sum
  if |total_area| < 1 / 1000000000 then ⟨0, 0, 0, 0, 0⟩
  else
    let centroid_x := moment_y / total_area
    let centroid_y := moment_x / total_area
    let inertia_x := (procs.map fun p =>
      p.Ix + p.A * (p.y - centroid_y) ^ 2).sum
    let inertia_y := (procs.map fun p =>
      p.Iy + p.A * (p.x - centroid_x) ^ 2).sum
    ⟨total_area, centroid_x, centroid_y, inertia_x, inertia_y⟩

/-- calculate_section_properties of core/section_analysis.py (lines 5-96).
ValueError raises are modelled as Except.error.  When homogenize is false
the modular ratio is never read (the source only touches it under the
homogenize guard), so the 0 default passed to the core is inert. -/
def calculate_section_properties {K : Type*} [LinearOrderedField K]
    (shapes : List (SectionInput K)) (homogenize : Bool)
    (modular_ratio : Option K) : Except String (SectionProperties K) :=
  if homogenize ∧ modular_ratio.isNone then Except.error msgRequiereRatio
  else if homogenize ∧ modular_ratio.getD 0 ≤ 0 then
    Except.error msgRatioPositivo
  else Except.ok (sectionCore
    (shapes.map (processShape homogenize (modular_ratio.getD 0))))

/-!
Shape primitives: shapes/steel_plate.py, shapes/concrete_trapezoid.py,
shapes/rotated_steel_plate.py.
-/

/-- SteelPlate (shapes/steel_plate.py): axis-aligned rectangular plate. -/
structure SteelPlate (K : Type*) where
  width : K
  height : K
  cg_x : K
  cg_y : K
  deriving DecidableEq

/-- Constructor validation of lines 13-14. -/
def SteelPlate.mk? {K : Type*} [LinearOrderedField K]
    (width height cg_x cg_y : K) : Except String (SteelPlate K) :=
  if width ≤ 0 ∨ height ≤ 0 then
    Except.error "El ancho y alto de la chapa deben ser positivos."
  else Except.ok ⟨width, height, cg_x, cg_y⟩

/-- Line 11: the material tag of every steel plate. -/
def SteelPlate.material {K : Type*} (_ : SteelPlate K) : String := "steel"

/-- Line 18. -/
def SteelPlate.area {K : Type*} [LinearOrderedField K] (p : SteelPlate K) : K :=
  p.width * p.height

/-- Line 24. -/
def SteelPlate.inertia_x_local {K : Type*} [LinearOrderedField K]
    (p : SteelPlate K) : K :=
  p.width * p.height ^ 3 / 12

/-- Line 30. -/
def SteelPlate.inertia_y_local {K : Type*} [LinearOrderedField K]
    (p : SteelPlate K) : K :=
  p.height * p.width ^ 3 / 12

/-- Line 34. -/
def SteelPlate.y_min {K : Type*} [LinearOrderedField K] (p : SteelPlate K) : K :=
  p.cg_y - p.height / 2

/-- Line 37. -/
def SteelPlate.y_max {K : Type*} [LinearOrderedField K] (p : SteelPlate K) : K :=
  p.cg_y + p.height / 2

/-- SteelPlate.get_vertices (lines 45-61): scales only the width; the
scale factor is applied without any clamping. -/
def SteelPlate.get_vertices {K : Type*} [LinearOrderedField K]
    (p : SteelPlate K) (width_scale_factor : K) : List (K × K) :=
  let scaled_width := p.width * width_scale_factor
  let half_w := scaled_width / 2
  let half_h := p.height / 2
  [(p.cg_x - half_w, p.cg_y - half_h),
   (p.cg_x + half_w, p.cg_y - half_h),
   (p.cg_x + half_w, p.cg_y + half_h),
   (p.cg_x - half_w, p.cg_y + half_h)]

/-- ConcreteTrapezoid (shapes/concrete_trapezoid.py): symmetric trapezoid
given by bottom width b1, top width b2, height h and the center of the
bottom edge. -/
structure ConcreteTrapezoid (K : Type*) where
  b1 : K
  b2 : K
  h : K
  bc_x : K
  bc_y : K
  deriving DecidableEq

/-- Constructor validation of lines 18-21. -/
def ConcreteTrapezoid.mk? {K : Type*} [LinearOrderedField K]
    (bottom_width top_width height bottom_center_x bottom_center_y : K) :
    Except String (ConcreteTrapezoid K) :=
  if height ≤ 0 then
    Except.error "La altura del trapecio debe ser positiva."
  else if bottom_width < 0 ∨ top_width < 0 then
    Except.error "Los anchos del trapecio no pueden ser negativos."
  else Except.ok ⟨bottom_width, top_width, height, bottom_center_x,
    bottom_center_y⟩

/-- Line 16. -/
def ConcreteTrapezoid.material {K : Type*} (_ : ConcreteTrapezoid K) : String :=
  "concrete"

/-- Line 25. -/
def ConcreteTrapezoid.area {K : Type*} [LinearOrderedField K]
    (tz : ConcreteTrapezoid K) : K :=
  (tz.b1 + tz.b2) / 2 * tz.h

/-- Lines 28-36: vertical distance of the centroid from the bottom edge,
with the degenerate b1 + b2 = 0 guard answering h / 2. -/
def ConcreteTrapezoid.cg_y_local {K : Type*} [LinearOrderedField K]
    (tz : ConcreteTrapezoid K) : K :=
  let sum_b := tz.b1 + tz.b2
  if |sum_b| < 1 / 1000000000 then tz.h / 2
  else tz.h / 3 * (tz.b1 + 2 * tz.b2) / sum_b

/-- Line 42. -/
def ConcreteTrapezoid.cg_x {K : Type*} [LinearOrderedField K]
    (tz : ConcreteTrapezoid K) : K := tz.bc_x

/-- Line 47. -/
def ConcreteTrapezoid.cg_y {K : Type*} [LinearOrderedField K]
    (tz : ConcreteTrapezoid K) : K := tz.bc_y + tz.cg_y_local

/-- Lines 50-56. -/
def ConcreteTrapezoid.inertia_x_local {K : Type*} [LinearOrderedField K]
    (tz : ConcreteTrapezoid K) : K :=
  let sum_b := tz.b1 + tz.b2
  if |sum_b| < 1 / 1000000000 then 0
  else tz.h ^ 3 / 36 * (tz.b1 ^ 2 + 4 * tz.b1 * tz.b2 + tz.b2 ^ 2) / sum_b

/-- Lines 58-70 (the ZeroDivisionError handler of line 69 is unreachable:
the formula divides by the constant 48). -/
def ConcreteTrapezoid.inertia_y_local {K : Type*} [LinearOrderedField K]
    (tz : ConcreteTrapezoid K) : K :=
  let sum_b := tz.b1 + tz.b2
  if |sum_b| < 1 / 1000000000 ∨ tz.h = 0 then 0
  else tz.h * (tz.b1 + tz.b2) * (tz.b1 ^ 2 + tz.b2 ^ 2) / 48

/-- Line 74. -/
def ConcreteTrapezoid.y_min {K : Type*} [LinearOrderedField K]
    (tz : ConcreteTrapezoid K) : K := tz.bc_y

/-- Line 77. -/
def ConcreteTrapezoid.y_max {K : Type*} [LinearOrderedField K]
    (tz : ConcreteTrapezoid K) : K := tz.bc_y + tz.h

/-- ConcreteTrapezoid.get_vertices (lines 88-103): scales both widths
symmetrically about bc_x; the scale factor is applied without clamping. -/
def ConcreteTrapezoid.get_vertices {K : Type*} [LinearOrderedField K]
    (tz : ConcreteTrapezoid K) (width_scale_factor : K) : List (K × K) :=
  let scaled_b1 := tz.b1 * width_scale_factor
  let scaled_b2 := tz.b2 * width_scale_factor
  let half_b1 := scaled_b1 / 2
  let half_b2 := scaled_b2 / 2
  [(tz.bc_x - half_b1, tz.bc_y),
   (tz.bc_x + half_b1, tz.bc_y),
   (tz.bc_x + half_b2, tz.bc_y + tz.h),
   (tz.bc_x - half_b2, tz.bc_y + tz.h)]

/-- RotatedSteelPlate (shapes/rotated_steel_plate.py): the state stored by
__init__, over any field; the constructor itself (mk?) is defined over ℝ
because it computes a Euclidean norm and atan2. -/
structure RotatedSteelPlate (K : Type*) where
  t : K
  material : String
  definition_method : String
  p1 : K × K
  p2 : K × K
  L : K
  u_dir : K × K
  vector_original : K × K
  length_original : K
  theta : K
  cg_x : K
  cg_y : K
  deriving DecidableEq

/-- np.linalg.norm of a 2-vector. -/
noncomputable def norm2 (v : ℝ × ℝ) : ℝ := Real.sqrt (v.1 ^ 2 + v.2 ^ 2)

/-- math.atan2 y x, expressed through the complex argument: atan2 with the
standard quadrant conventions equals arg (x + y i). -/
noncomputable def atan2 (y x : ℝ) : ℝ := Complex.arg ⟨x, y⟩

/-- The falsy-default resolution of line 55 / line 72: None and the empty
string are replaced by the branch default. -/
def resolveDefMethod (dm : Option String) (dflt : String) : String :=
  match dm with
  | none => dflt
  | some s => if s = "" then dflt else s

/-- RotatedSteelPlate.__init__ (lines 12-81).  ValueError raises are
modelled as Except.error.  When p2 is supplied the vector and length
arguments are not consulted at all (the source only has a commented-out
warning, line 41-45, before ignoring them). -/
noncomputable def RotatedSteelPlate.mk? (thickness : ℝ) (p1 : ℝ × ℝ)
    (p2? : Option (ℝ × ℝ)) (vector? : Option (ℝ × ℝ)) (length? : Option ℝ)
    (definition_method : Option String) :
    Except String (RotatedSteelPlate ℝ) :=
  if thickness ≤ 0 then
    Except.error "El espesor de la chapa debe ser positivo."
  else
    match p2? with
    | some p2 =>
      let diff := (p2.1 - p1.1, p2.2 - p1.2)
      let L := norm2 diff
      if L < 1 / 1000000000 then
        Except.error "Los puntos p1 y p2 son coincidentes (longitud cero)."
      else
        let u_dir := (diff.1 / L, diff.2 / L)
        Except.ok ⟨thickness, "steel", resolveDefMethod definition_method "Points",
          p1, p2, L, u_dir, diff, L, atan2 u_dir.2 u_dir.1,
          (p1.1 + p2.1) / 2, (p1.2 + p2.2) / 2⟩
    | none =>
      match vector?, length? with
      | some v, some len =>
        if len ≤ 0 then
          Except.error "La longitud length debe ser positiva."
        else
          let v_norm := norm2 v
          if v_norm < 1 / 1000000000 then
            Except.error "El vector director no puede ser cero."
          else
            let u_dir := (v.1 / v_norm, v.2 / v_norm)
            let p2 := (p1.1 + len * u_dir.1, p1.2 + len * u_dir.2)
            Except.ok ⟨thickness, "steel",
              resolveDefMethod definition_method "Vector",
              p1, p2, len, u_dir, v, len, atan2 u_dir.2 u_dir.1,
              (p1.1 + p2.1) / 2, (p1.2 + p2.2) / 2⟩
      | _, _ =>
        Except.error "Debe proporcionar p2 o (vector y length)."

/-- Line 86. -/
def RotatedSteelPlate.area {K : Type*} [LinearOrderedField K]
    (rp : RotatedSteelPlate K) : K := rp.L * rp.t

/-- Lines 92-105: inertia about the horizontal axis through the local
centroid, from the rotation of the local (u, v) inertias. -/
noncomputable def RotatedSteelPlate.inertia_x_local (rp : RotatedSteelPlate ℝ) : ℝ :=
  let Iu := rp.t * rp.L ^ 3 / 12
  let Iv := rp.L * rp.t ^ 3 / 12
  Iu * Real.sin rp.theta ^ 2 + Iv * Real.cos rp.theta ^ 2

/-- Lines 107-115. -/
noncomputable def RotatedSteelPlate.inertia_y_local (rp : RotatedSteelPlate ℝ) : ℝ :=
  let Iu := rp.t * rp.L ^ 3 / 12
  let Iv := rp.L * rp.t ^ 3 / 12
  Iu * Real.cos rp.theta ^ 2 + Iv * Real.sin rp.theta ^ 2

/-- RotatedSteelPlate.get_vertices (lines 117-137): the only get_vertices
with a clamp, line 123 replaces a negative scaled thickness by 0. -/
def RotatedSteelPlate.get_vertices {K : Type*} [LinearOrderedField K]
    (rp : RotatedSteelPlate K) (width_scale_factor : K) : List (K × K) :=
  let scaled_t0 := rp.t * width_scale_factor
  let scaled_t := if scaled_t0 < 0 then 0 else scaled_t0
  let half_t := scaled_t / 2
  let u_norm := (-rp.u_dir.2, rp.u_dir.1)
  [(rp.p1.1 + half_t * u_norm.1, rp.p1.2 + half_t * u_norm.2),
   (rp.p2.1 + half_t * u_norm.1, rp.p2.2 + half_t * u_norm.2),
   (rp.p2.1 - half_t * u_norm.1, rp.p2.2 - half_t * u_norm.2),
   (rp.p1.1 - half_t * u_norm.1, rp.p1.2 - half_t * u_norm.2)]

/-!
Classification engine: core/classification_ec3.py, classify_section_ec3.
-/

/-- The attributes read from a shape by classify_section_ec3: the material
tag (line 60 tests hasattr before comparing) and y_min/y_max (missing
attributes raise AttributeError, caught at line 144). -/
structure ClassInput (K : Type*) where
  material : Option String
  y_ext : Option (K × K)
  deriving DecidableEq

/-- The results dict of classify_section_ec3. -/
structure ClassificationResult where
  element_classes : List (String × ℕ)
  overall_class : ℕ
  warnings : List String
  deriving DecidableEq

/-- Warning of line 52. -/
def msgFyInvalido : String := "Fy inválido, no se puede calcular epsilon."

/-- Warning of line 145 (the python type name in the message is elided). -/
def warnSinProps (i : ℕ) : String :=
  "Forma " ++ toString i ++ " sin props. y_min/y_max para clasificación."

/-- Warning of line 148 for the NameError raised at lines 97/111/123/127:
the module never imports SteelPlate / RotatedSteelPlate, so evaluating
either name fails (message rendered without the python quotes). -/
def warnNameError (i : ℕ) : String :=
  "Error clasificando forma " ++ toString i ++
    ": name SteelPlate is not defined"

/-- Fixed advisory warning of line 159. -/
def warnEC4 : String :=
  "Regla EC4 (contacto ala-hormigón -> Clase 1) NO implementada."

/-- Fixed advisory warning of line 160. -/
def warnHeuristica : String :=
  "Clasificación basada en heurística simple (alma/ala) y dimensiones totales comprimidas (conservador)."

/-- The per-steel-shape body of the classification loop (lines 67-149).
A shape without y_min/y_max raises AttributeError: class 4 (line 146).
Otherwise, when y_na is a finite number (isinstance of int/float, which a
float infinity also satisfies) and either cuts the shape strictly or lies
at or below y_min, the source enters a compressed branch whose first
statement evaluates the unimported name SteelPlate; the NameError is
caught by the generic handler of line 147: class 4 with a warning.  In
every remaining case is_compressed stays False and the class is 1; the
epsilon-based get_element_class call of line 138 is unreachable. -/
def classifyShapeStep {K : Type*} [LinearOrderedField K]
    (y_na : YNa K) (i : ℕ) (sh : ClassInput K) : ℕ × List String :=
  match sh.y_ext with
  | none => (4, [warnSinProps (i + 1)])
  | some (y_min, y_max) =>
    match y_na with
    | YNa.fin v =>
      if v < y_max ∧ v > y_min then (4, [warnNameError (i + 1)])
      else if v ≤ y_min then (4, [warnNameError (i + 1)])
      else (1, [])
    | _ => (1, [])

/-- The enumerate loop of lines 58-153: non-steel shapes are skipped
(line 60), steel shapes contribute one element_classes entry keyed by
their 1-based position, plus their warnings. -/
def classifyEntries {K : Type*} [LinearOrderedField K]
    (y_na : YNa K) : ℕ → List (ClassInput K) →
    List (String × ℕ) × List String
  | _, [] => ([], [])
  | i, sh :: rest =>
    let tail := classifyEntries y_na (i + 1) rest
    if sh.material = some "steel" then
      let step := classifyShapeStep y_na i sh
      (("steel_shape_" ++ toString (i + 1), step.1) :: tail.1,
        step.2 ++ tail.2)
    else tail

/-- classify_section_ec3 of core/classification_ec3.py (lines 37-162).
For fy <= 0 the initial results dict is returned with a warning
(overall_class keeps its initial value 1).  Otherwise the final
overall_class is the fold of max over the element classes starting from 0
(line 56 initialises max_class = 0, although its own comment and the
initial dict of line 50 say the scan starts from class 1). -/
def classify_section_ec3 {K : Type*} [LinearOrderedField K]
    (shapes : List (ClassInput K)) (y_na : YNa K) (fy : K) :
    ClassificationResult :=
  if fy ≤ 0 then ⟨[], 1, [msgFyInvalido]⟩
  else
    let entries := classifyEntries y_na 0 shapes
    let max_class := entries.1.foldl (fun m e => max m e.2) 0
    ⟨entries.1, max_class, entries.2 ++ [warnEC4, warnHeuristica]⟩

/-- The attribute record classify_section_ec3 reads off a SteelPlate. -/
def SteelPlate.toClassInput {K : Type*} [LinearOrderedField K]
    (p : SteelPlate K) : ClassInput K :=
  ⟨some p.material, some (p.y_min, p.y_max)⟩

/-- The attribute record classify_section_ec3 reads off a trapezoid. -/
def ConcreteTrapezoid.toClassInput {K : Type*} [LinearOrderedField K]
    (tz : ConcreteTrapezoid K) : ClassInput K :=
  ⟨some tz.material, some (tz.y_min, tz.y_max)⟩

/-- Claim C7: for every epsilon > 0 and element type, the element class is
the first of the three cumulative thresholds (limit * epsilon) not exceeded
by c/t, with the threshold itself included, and class 4 when all three are
exceeded; the outstand table is 9/10/14 and the internal table 33/38/42; in
particular, for an internal element with epsilon = 1, c/t = 33 gives class
1, c/t = 33.0001 gives class 2 and c/t = 42.0001 gives class 4. -/
theorem C7_element_class_thresholds {K : Type*} [LinearOrderedField K]
    (epsilon : K) (heps : 0 < epsilon) (ratio_ct : K) (element_type : String) :
    ((get_element_class ratio_ct epsilon element_type = 1 ↔
        ratio_ct ≤ classLimits element_type 1 * epsilon) ∧
      (get_element_class ratio_ct epsilon element_type ≤ 2 ↔
        ratio_ct ≤ classLimits element_type 2 * epsilon) ∧
      (get_element_class ratio_ct epsilon element_type ≤ 3 ↔
        ratio_ct ≤ classLimits element_type 3 * epsilon) ∧
      (get_element_class ratio_ct epsilon element_type = 4 ↔
        classLimits element_type 3 * epsilon < ratio_ct)) ∧
    classLimits (K := K) "outstand" = CLASS_LIMITS_FLANGE_COMP ∧
    classLimits (K := K) "internal" = CLASS_LIMITS_WEB_COMP ∧
    get_element_class (33 : K) 1 "internal" = 1 ∧
    get_element_class ((330001 : K) / 10000) 1 "internal" = 2 ∧
    get_element_class ((420001 : K) / 10000) 1 "internal" = 4 := by
  have hlim : classLimits (K := K) element_type 1 ≤ classLimits element_type 2 ∧
      classLimits (K := K) element_type 2 ≤ classLimits element_type 3 := by
    unfold classLimits CLASS_LIMITS_FLANGE_COMP CLASS_LIMITS_WEB_COMP
    split <;> norm_num
  have h12 : classLimits (K := K) element_type 1 * epsilon ≤
      classLimits element_type 2 * epsilon :=
    mul_le_mul_of_nonneg_right hlim.1 heps.le
  have h23 : classLimits (K := K) element_type 2 * epsilon ≤
      classLimits element_type 3 * epsilon :=
    mul_le_mul_of_nonneg_right hlim.2 heps.le
  refine ⟨?_, by simp [classLimits], by simp [classLimits],
    by simp [get_element_class, classLimits, CLASS_LIMITS_WEB_COMP],
    by simp [get_element_class, classLimits, CLASS_LIMITS_WEB_COMP]; norm_num,
    by simp [get_element_class, classLimits, CLASS_LIMITS_WEB_COMP]; norm_num⟩
  unfold get_element_class
  split_ifs with h1 h2 h3
  · exact ⟨⟨fun _ => h1, fun _ => rfl⟩,
      ⟨fun _ => h1.trans h12, fun _ => by norm_num⟩,
      ⟨fun _ => h1.trans (h12.trans h23), fun _ => by norm_num⟩,
      ⟨fun hc => absurd hc (by norm_num),
        fun hc => absurd (h1.trans (h12.trans h23)) (not_le.mpr hc)⟩⟩
  · exact ⟨⟨fun hc => absurd hc (by norm_num), fun hle => absurd hle h1⟩,
      ⟨fun _ => h2, fun _ => le_refl 2⟩,
      ⟨fun _ => h2.trans h23, fun _ => by norm_num⟩,
      ⟨fun hc => absurd hc (by norm_num),
        fun hc => absurd (h2.trans h23) (not_le.mpr hc)⟩⟩
  · exact ⟨⟨fun hc => absurd hc (by norm_num), fun hle => absurd hle h1⟩,
      ⟨fun hc => absurd hc (by norm_num), fun hle => absurd hle h2⟩,
      ⟨fun _ => h3, fun _ => le_refl 3⟩,
      ⟨fun hc => absurd hc (by norm_num),
        fun hc => absurd h3 (not_le.mpr hc)⟩⟩
  · exact ⟨⟨fun hc => absurd hc (by norm_num), fun hle => absurd hle h1⟩,
      ⟨fun hc => absurd hc (by norm_num), fun hle => absurd hle h2⟩,
      ⟨fun hc => absurd hc (by norm_num), fun hle => absurd hle h3⟩,
      ⟨fun _ => not_le.mp h3, fun _ => rfl⟩⟩


/-- Witness for C7 at concrete inputs over ℚ. -/
theorem C7_element_class_thresholds_witness :
    (0 : ℚ) < 1 ∧ get_element_class (34 : ℚ) 1 "internal" ≤ 2 :=
  ⟨by norm_num,
    ((C7_element_class_thresholds (K := ℚ) 1 (by norm_num) 34 "internal").1.2.1).mpr
      (by simp [classLimits, CLASS_LIMITS_WEB_COMP]; norm_num)⟩

/-- Helper: the entries the stress loop records for the shape at list
position i, for any starting value of the running index. -/
theorem stressEntries_mem {K : Type*} [LinearOrderedField K]
    (Mx_ed Iy_h y_G sigma_axial : K) (shapes : List (StressInput K))
    (i0 i : ℕ) (sh : StressInput K) (ymin ymax : K)
    (hget : shapes.get? i = some sh) (hext : sh.y_ext = some (ymin, ymax)) :
    ("shape_" ++ toString (i0 + i + 1) ++ "_ymin",
        (⟨ymin, if 1 / 1000000000 < |Iy_h| then
            sigma_axial - Mx_ed / Iy_h * (ymin - y_G) else sigma_axial,
          sh.material⟩ : StressPoint K))
      ∈ stressEntries Mx_ed Iy_h y_G sigma_axial i0 shapes ∧
    ("shape_" ++ toString (i0 + i + 1) ++ "_ymax",
        (⟨ymax, if 1 / 1000000000 < |Iy_h| then
            sigma_axial - Mx_ed / Iy_h * (ymax - y_G) else sigma_axial,
          sh.material⟩ : StressPoint K))
      ∈ stressEntries Mx_ed Iy_h y_G sigma_axial i0 shapes := by
  induction shapes generalizing i0 i with
  | nil => simp at hget
  | cons hd tl ih =>
    cases i with
    | zero =>
      have hhd : hd = sh := by simpa using hget
      subst hhd
      constructor
      · simp [stressEntries, hext]
      · simp [stressEntries, hext]
    | succ n =>
      have hget2 : tl.get? n = some sh := by simpa using hget
      have h := ih (i0 + 1) n hget2
      have e : i0 + 1 + n + 1 = i0 + (n + 1) + 1 := by omega
      rw [e] at h
      refine ⟨?_, ?_⟩
      · show _ ∈ (match hd.y_ext with
          | none => []
          | some (y_min_shape, y_max_shape) => _) ++
            stressEntries Mx_ed Iy_h y_G sigma_axial (i0 + 1) tl
        exact List.mem_append_right _ h.1
      · show _ ∈ (match hd.y_ext with
          | none => []
          | some (y_min_shape, y_max_shape) => _) ++
            stressEntries Mx_ed Iy_h y_G sigma_axial (i0 + 1) tl
        exact List.mem_append_right _ h.2

/-- Claim C2: for every call that passes the precondition checks, if
abs Mx > 1e-9 then y_na = centroid_y + N * inertia_x / (Mx * total_area);
else if abs N < 1e-9 then y_na is null; else (pure axial) y_na is positive
infinity regardless of the sign of N. -/
theorem C2_neutral_axis {K : Type*} [LinearOrderedField K]
    (N_ed Mx_ed : K) (shapes : List (StressInput K)) (A_h Iy_h y_G : K)
    (hA : ¬ |A_h| < 1 / 1000000000)
    (hIM : ¬ (|Iy_h| < 1 / 1000000000 ∧ 1 / 1000000000 < |Mx_ed|)) :
    (calculate_navier_stress N_ed Mx_ed shapes
        ⟨some A_h, some Iy_h, some y_G⟩).y_na =
      if 1 / 1000000000 < |Mx_ed| then
        YNa.fin (y_G + N_ed * Iy_h / (Mx_ed * A_h))
      else if |N_ed| < 1 / 1000000000 then YNa.null
      else YNa.posInf := by
  unfold calculate_navier_stress
  simp only [if_neg hA, if_neg hIM]
  by_cases h1 : 1 / 1000000000 < |Mx_ed|
  · rw [if_pos h1, if_pos h1]
  · rw [if_neg h1, if_neg h1]
    by_cases h2 : |N_ed| < 1 / 1000000000
    · rw [if_pos h2, if_pos h2]
    · -- the source writes float(inf) if N_ed != 0, and N_ed = 0 is
      -- impossible here because abs N_ed >= 1e-9 > 0
      have hN : N_ed ≠ 0 := fun h0 => h2 (by rw [h0]; norm_num)
      rw [if_neg h2, if_neg h2, if_pos hN]

/-- Witness for C2 over ℚ, with a negative axial force and zero moment:
the neutral axis is reported at positive infinity. -/
theorem C2_neutral_axis_witness :
    ¬ |(10 : ℚ)| < 1 / 1000000000 ∧
    (calculate_navier_stress (-5 : ℚ) 0 []
        ⟨some 10, some 1, some 0⟩).y_na = YNa.posInf := by
  have hA : ¬ |(10 : ℚ)| < 1 / 1000000000 := by norm_num
  have hIM : ¬ (|(1 : ℚ)| < 1 / 1000000000 ∧ 1 / 1000000000 < |(0 : ℚ)|) := by
    norm_num
  refine ⟨hA, ?_⟩
  rw [C2_neutral_axis (-5 : ℚ) 0 [] 10 1 0 hA hIM]
  norm_num

/-- Claim C4: for every call that passes the precondition checks and every
shape with a defined vertical extent, the result records at the shape
extremes the stress sigma y = N / total_area - Mx / inertia_x * (y -
centroid_y), the moment term being dropped when the inertia is below the
1e-9 tolerance, and when abs Mx > 1e-9 the neutral axis sits at
centroid_y + N * inertia_x / (Mx * total_area). -/
theorem C4_stress_values {K : Type*} [LinearOrderedField K]
    (N_ed Mx_ed : K) (shapes : List (StressInput K)) (A_h Iy_h y_G : K)
    (hA : ¬ |A_h| < 1 / 1000000000)
    (hIM : ¬ (|Iy_h| < 1 / 1000000000 ∧ 1 / 1000000000 < |Mx_ed|))
    (i : ℕ) (sh : StressInput K) (ymin ymax : K)
    (hget : shapes.get? i = some sh) (hext : sh.y_ext = some (ymin, ymax)) :
    ("shape_" ++ toString (i + 1) ++ "_ymin",
        (⟨ymin, if 1 / 1000000000 < |Iy_h| then
            N_ed / A_h - Mx_ed / Iy_h * (ymin - y_G) else N_ed / A_h,
          sh.material⟩ : StressPoint K))
      ∈ (calculate_navier_stress N_ed Mx_ed shapes
          ⟨some A_h, some Iy_h, some y_G⟩).stresses ∧
    ("shape_" ++ toString (i + 1) ++ "_ymax",
        (⟨ymax, if 1 / 1000000000 < |Iy_h| then
            N_ed / A_h - Mx_ed / Iy_h * (ymax - y_G) else N_ed / A_h,
          sh.material⟩ : StressPoint K))
      ∈ (calculate_navier_stress N_ed Mx_ed shapes
          ⟨some A_h, some Iy_h, some y_G⟩).stresses ∧
    (1 / 1000000000 < |Mx_ed| →
      (calculate_navier_stress N_ed Mx_ed shapes
          ⟨some A_h, some Iy_h, some y_G⟩).y_na =
        YNa.fin (y_G + N_ed * Iy_h / (Mx_ed * A_h))) := by
  have hAne : A_h ≠ 0 := by
    intro h0
    exact hA (by rw [h0]; norm_num)
  have h := stressEntries_mem Mx_ed Iy_h y_G
    (if A_h ≠ 0 then N_ed / A_h else 0) shapes 0 i sh ymin ymax hget hext
  rw [if_pos hAne] at h
  rw [Nat.zero_add] at h
  have hs : (calculate_navier_stress N_ed Mx_ed shapes
      ⟨some A_h, some Iy_h, some y_G⟩).stresses =
      stressEntries Mx_ed Iy_h y_G
        (if A_h ≠ 0 then N_ed / A_h else 0) 0 shapes := by
    unfold calculate_navier_stress
    simp only [if_neg hA, if_neg hIM]
  rw [if_pos hAne] at hs
  refine ⟨hs ▸ h.1, hs ▸ h.2, fun hM => ?_⟩
  unfold calculate_navier_stress
  simp only [if_neg hA, if_neg hIM]
  rw [if_pos hM]

/-- Witness for C4 over ℚ: the pure-bending test case N = 0,
Mx = 1000000, total_area = 100, inertia_x = 1000000, centroid_y = 0 with
one shape spanning y in -10..10 gives stress 10 at y = -10, stress -10 at
y = 10, and y_na = 0. -/
theorem C4_stress_values_witness :
    ("shape_1_ymin", (⟨-10, 10, "steel"⟩ : StressPoint ℚ))
      ∈ (calculate_navier_stress (0 : ℚ) 1000000 [⟨some (-10, 10), "steel"⟩]
          ⟨some 100, some 1000000, some 0⟩).stresses ∧
    ("shape_1_ymax", (⟨10, -10, "steel"⟩ : StressPoint ℚ))
      ∈ (calculate_navier_stress (0 : ℚ) 1000000 [⟨some (-10, 10), "steel"⟩]
          ⟨some 100, some 1000000, some 0⟩).stresses ∧
    (calculate_navier_stress (0 : ℚ) 1000000 [⟨some (-10, 10), "steel"⟩]
        ⟨some 100, some 1000000, some 0⟩).y_na = YNa.fin 0 := by
  have h := C4_stress_values (0 : ℚ) 1000000 [⟨some (-10, 10), "steel"⟩]
    100 1000000 0 (by norm_num) (by norm_num) 0
    ⟨some (-10, 10), "steel"⟩ (-10) 10 rfl rfl
  norm_num at h
  exact ⟨h.1, h.2.1, h.2.2⟩

/-- Claim C6: for every list of shapes, computing section properties with
homogenize = true and modular ratio 1 returns exactly the same result as
computing them with homogenize = false (dividing by 1 changes nothing). -/
theorem C6_homogenize_ratio_one {K : Type*} [LinearOrderedField K]
    (shapes : List (SectionInput K)) :
    calculate_section_properties shapes true (some 1) =
      calculate_section_properties shapes false none := by
  have hfun : processShape (K := K) true 1 = processShape false 0 := by
    funext s
    unfold processShape
    by_cases hm : s.material = some "concrete"
    · simp [hm]
    · simp [hm]
  unfold calculate_section_properties
  have h1 : ¬ ((true : Bool) ∧ (some (1 : K)).isNone) := by simp
  have h2 : ¬ ((true : Bool) ∧ (some (1 : K)).getD 0 ≤ 0) := by norm_num
  have h0 : ¬ ((false : Bool) ∧ (none : Option K).isNone) := by simp
  have h3 : ¬ ((false : Bool) ∧ (none : Option K).getD 0 ≤ 0) := by simp
  rw [if_neg h1, if_neg h2, if_neg h0, if_neg h3]
  simp only [Option.getD_some, Option.getD_none]
  rw [hfun]

/-- Helper: the internal table is selected for the element type used by
web elements. -/
theorem classLimits_internal {K : Type*} [LinearOrderedField K] :
    classLimits (K := K) "internal" = CLASS_LIMITS_WEB_COMP := by
  simp [classLimits]

/-- Helper: the flange table is selected for outstand elements. -/
theorem classLimits_outstand {K : Type*} [LinearOrderedField K] :
    classLimits (K := K) "outstand" = CLASS_LIMITS_FLANGE_COMP := by
  simp [classLimits]

/-- Claim C5: calculate_navier_stress never raises (the Lean model is a
total function) and: a missing property, a negligible area, and a zero
inertia with applied moment each produce their own distinct error result
with null y_na and empty stresses; when the preconditions pass, the error
field stays unset and every shape with a vertical extent gets its two
stress entries even if other shapes lack extents. -/
theorem C5_error_handling {K : Type*} [LinearOrderedField K]
    (N_ed Mx_ed : K) (shapes : List (StressInput K))
    (homog_props : HomogProps K) :
    (homog_props.total_area = none ∨ homog_props.inertia_x = none ∨
        homog_props.centroid_y = none →
      calculate_navier_stress N_ed Mx_ed shapes homog_props =
        ⟨YNa.null, [], some msgFaltanProps⟩) ∧
    (∀ A_h Iy_h y_G : K, homog_props = ⟨some A_h, some Iy_h, some y_G⟩ →
      (|A_h| < 1 / 1000000000 →
        calculate_navier_stress N_ed Mx_ed shapes homog_props =
          ⟨YNa.null, [], some msgAreaCero⟩) ∧
      (¬ |A_h| < 1 / 1000000000 → |Iy_h| < 1 / 1000000000 →
          1 / 1000000000 < |Mx_ed| →
        calculate_navier_stress N_ed Mx_ed shapes homog_props =
          ⟨YNa.null, [], some msgInerciaNula⟩) ∧
      (¬ |A_h| < 1 / 1000000000 →
          ¬ (|Iy_h| < 1 / 1000000000 ∧ 1 / 1000000000 < |Mx_ed|) →
        (calculate_navier_stress N_ed Mx_ed shapes homog_props).error =
          none ∧
        ∀ (i : ℕ) (sh : StressInput K) (ymin ymax : K),
          shapes.get? i = some sh → sh.y_ext = some (ymin, ymax) →
          ("shape_" ++ toString (i + 1) ++ "_ymin") ∈
            (calculate_navier_stress N_ed Mx_ed shapes
              homog_props).stresses.map Prod.fst ∧
          ("shape_" ++ toString (i + 1) ++ "_ymax") ∈
            (calculate_navier_stress N_ed Mx_ed shapes
              homog_props).stresses.map Prod.fst)) ∧
    (msgFaltanProps ≠ msgAreaCero ∧ msgFaltanProps ≠ msgInerciaNula ∧
      msgAreaCero ≠ msgInerciaNula) := by
  obtain ⟨ta, ix, cy⟩ := homog_props
  refine ⟨?_, ?_, by refine ⟨by decide, by decide, by decide⟩⟩
  · intro h
    cases ta <;> cases ix <;> cases cy <;>
      simp_all [calculate_navier_stress]
  · rintro A_h Iy_h y_G ⟨rfl, rfl, rfl⟩
    refine ⟨?_, ?_, ?_⟩
    · intro h
      unfold calculate_navier_stress
      dsimp only
      rw [if_pos h]
    · intro hA hI hM
      unfold calculate_navier_stress
      dsimp only
      rw [if_neg hA, if_pos ⟨hI, hM⟩]
    · intro hA hIM
      constructor
      · unfold calculate_navier_stress
        dsimp only
        rw [if_neg hA, if_neg hIM]
      · intro i sh ymin ymax hget hext
        have h := stressEntries_mem Mx_ed Iy_h y_G
          (if A_h ≠ 0 then N_ed / A_h else 0) shapes 0 i sh ymin ymax
          hget hext
        rw [Nat.zero_add] at h
        have hs : (calculate_navier_stress N_ed Mx_ed shapes
            ⟨some A_h, some Iy_h, some y_G⟩).stresses =
            stressEntries Mx_ed Iy_h y_G
              (if A_h ≠ 0 then N_ed / A_h else 0) 0 shapes := by
          unfold calculate_navier_stress
          dsimp only
          rw [if_neg hA, if_neg hIM]
        rw [hs]
        exact ⟨List.mem_map_of_mem Prod.fst h.1,
          List.mem_map_of_mem Prod.fst h.2⟩

/-- Witness for C5 over ℚ: with one extent-less shape followed by a
normal one, the preconditions pass, no error is set and the second shape
still gets its entries. -/
theorem C5_error_handling_witness :
    (calculate_navier_stress (1 : ℚ) 1
        [⟨none, "mystery"⟩, ⟨some (0, 1), "steel"⟩]
        ⟨some 10, some 1, some 0⟩).error = none ∧
    "shape_2_ymin" ∈
      (calculate_navier_stress (1 : ℚ) 1
        [⟨none, "mystery"⟩, ⟨some (0, 1), "steel"⟩]
        ⟨some 10, some 1, some 0⟩).stresses.map Prod.fst := by
  have h := (C5_error_handling (1 : ℚ) 1
      [⟨none, "mystery"⟩, ⟨some (0, 1), "steel"⟩]
      ⟨some 10, some 1, some 0⟩).2.1 10 1 0 rfl
  have h2 := h.2.2 (by norm_num) (by norm_num)
  refine ⟨h2.1, ?_⟩
  exact (h2.2 1 ⟨some (0, 1), "steel"⟩ 0 1 rfl rfl).1

/-- Claim C1 (refuted by the code): spec says a steel plate cut by a
finite neutral axis is classified from c/t of its full dimensions; for a
plate of width 10 and height 100 centred at the origin with fy = 235 and
y_na = 0 that heuristic gives an internal element with c/t = 10, epsilon =
1 and class 1 by get_element_class, but classify_section_ec3 records
class 4: core/classification_ec3.py never imports SteelPlate or
RotatedSteelPlate, the isinstance test of line 97 raises NameError, and
the generic handler of line 147 assigns the pessimistic class 4. -/
theorem C1_classification_nameerror :
    (classify_section_ec3 (K := ℚ)
        [SteelPlate.toClassInput ⟨10, 100, 0, 0⟩]
        (YNa.fin 0) 235).element_classes = [("steel_shape_1", 4)] ∧
    get_element_class ((⟨10, 100, 0, 0⟩ : SteelPlate ℚ).height /
      (⟨10, 100, 0, 0⟩ : SteelPlate ℚ).width) 1 "internal" = 1 := by
  constructor
  · norm_num [classify_section_ec3, classifyEntries, classifyShapeStep,
      SteelPlate.toClassInput, SteelPlate.material, SteelPlate.y_min,
      SteelPlate.y_max]
    rfl
  · unfold get_element_class
    rw [classLimits_internal]
    norm_num [CLASS_LIMITS_WEB_COMP]

/-- Claim C3 (refuted by the code on the no-steel case): with an empty
shape list, or a list holding only a concrete trapezoid, and fy = 235,
classify_section_ec3 returns overall_class = 0, not 1: max_class is
initialised to 0 at line 56 (contradicting both the comment beside it and
the initial dict value 1 of line 50) and overwrites overall_class at line
156. -/
theorem C3_overall_class_no_steel :
    (classify_section_ec3 (K := ℚ) [] (YNa.fin 0) 235).overall_class = 0 ∧
    (classify_section_ec3 (K := ℚ)
        [ConcreteTrapezoid.toClassInput ⟨300, 200, 150, 0, 20⟩]
        (YNa.fin 30) 235).overall_class = 0 ∧
    (0 : ℕ) ≠ 1 := by
  refine ⟨?_, ?_, by decide⟩
  · norm_num [classify_section_ec3, classifyEntries]
  · unfold classify_section_ec3
    rw [if_neg (by norm_num : ¬ (235 : ℚ) ≤ 0)]
    simp [classifyEntries, ConcreteTrapezoid.toClassInput,
      ConcreteTrapezoid.material]

/-- Claim C8 counterexample: the axis-aligned plate does not clamp a
negative scale: with width 2 and scale -1 the scaled width spanned by the
bottom edge of the returned vertices is -2, which is negative. -/
theorem C8_plate_no_clamp_counterexample :
    (((⟨2, 2, 0, 0⟩ : SteelPlate ℚ).get_vertices (-1)).getD 1 (0, 0)).1 -
      (((⟨2, 2, 0, 0⟩ : SteelPlate ℚ).get_vertices (-1)).getD 0 (0, 0)).1
      < 0 := by
  norm_num [SteelPlate.get_vertices]

/-- Claim C8 amended: only the rotated plate clamps a negative scaled
thickness to 0 (so for it a non-positive scale renders exactly like scale
0); the axis-aligned plate and the trapezoid apply the scale factor to
their widths directly, so a negative scale produces a negative scaled
width in the built vertices. -/
theorem C8_scale_clamp_amended {K : Type*} [LinearOrderedField K] :
    (∀ rp : RotatedSteelPlate K, 0 ≤ rp.t → ∀ s : K, s ≤ 0 →
      rp.get_vertices s = rp.get_vertices 0) ∧
    (∀ (p : SteelPlate K) (s : K),
      ((p.get_vertices s).getD 1 (0, 0)).1 -
        ((p.get_vertices s).getD 0 (0, 0)).1 = p.width * s) ∧
    (∀ (tz : ConcreteTrapezoid K) (s : K),
      ((tz.get_vertices s).getD 1 (0, 0)).1 -
        ((tz.get_vertices s).getD 0 (0, 0)).1 = tz.b1 * s) := by
  refine ⟨?_, ?_, ?_⟩
  · intro rp ht s hs
    have h0 : rp.t * s ≤ 0 := mul_nonpos_iff.mpr (Or.inl ⟨ht, hs⟩)
    have e1 : (if rp.t * s < 0 then (0 : K) else rp.t * s) = 0 := by
      rcases lt_or_eq_of_le h0 with h | h
      · rw [if_pos h]
      · rw [if_neg (by rw [h]; exact lt_irrefl 0), h]
    have e2 : (if rp.t * 0 < 0 then (0 : K) else rp.t * 0) = 0 := by
      rw [mul_zero]
      simp
    simp only [RotatedSteelPlate.get_vertices]
    rw [e1, e2]
  · intro p s
    simp [SteelPlate.get_vertices]
    try ring
  · intro tz s
    simp [ConcreteTrapezoid.get_vertices]
    try ring

/-- Witness for C8 amended over ℚ: a rotated plate of thickness 1 renders
the same vertices at scale -1 as at scale 0. -/
theorem C8_scale_clamp_amended_witness :
    (0 : ℚ) ≤ 1 ∧ (-1 : ℚ) ≤ 0 ∧
    RotatedSteelPlate.get_vertices
        (⟨1, "steel", "Points", (0, 0), (2, 0), 2, (1, 0), (2, 0), 2, 0,
          1, 0⟩ : RotatedSteelPlate ℚ) (-1) =
      RotatedSteelPlate.get_vertices
        ⟨1, "steel", "Points", (0, 0), (2, 0), 2, (1, 0), (2, 0), 2, 0,
          1, 0⟩ 0 := by
  refine ⟨by norm_num, by norm_num, ?_⟩
  exact (C8_scale_clamp_amended (K := ℚ)).1 _ (by norm_num) (-1) (by norm_num)

/-- Helper: atan2 0 1 = 0 (the direction along the positive x axis). -/
theorem atan2_zero_one : atan2 0 1 = 0 := by
  unfold atan2
  have h : (⟨1, 0⟩ : ℂ) = 1 := rfl
  rw [h, Complex.arg_one]

/-- Claim C9: a rotated plate built from direction (1, 0) (theta = 0) and
length L with thickness t reproduces the area and both local inertias of
an axis-aligned plate of width L and height t. -/
theorem C9_rotated_theta_zero (L t : ℝ) (p1 : ℝ × ℝ)
    (hL : 0 < L) (ht : 0 < t) :
    ∃ rp : RotatedSteelPlate ℝ,
      RotatedSteelPlate.mk? t p1 none (some (1, 0)) (some L) none =
        Except.ok rp ∧
      rp.theta = 0 ∧
      rp.area = SteelPlate.area ⟨L, t, 0, 0⟩ ∧
      rp.inertia_x_local = SteelPlate.inertia_x_local ⟨L, t, 0, 0⟩ ∧
      rp.inertia_y_local = SteelPlate.inertia_y_local ⟨L, t, 0, 0⟩ := by
  have hnorm : norm2 (1, 0) = 1 := by
    unfold norm2
    norm_num
  refine ⟨⟨t, "steel", "Vector", p1, (p1.1 + L, p1.2), L, (1, 0), (1, 0), L,
      0, p1.1 + L / 2, p1.2⟩, ?_, rfl, ?_, ?_, ?_⟩
  · unfold RotatedSteelPlate.mk?
    rw [if_neg (not_le.mpr ht)]
    show (if L ≤ 0 then _ else _) = _
    rw [if_neg (not_le.mpr hL)]
    rw [hnorm]
    have hcond : ¬ ((1 : ℝ) < 1 / 1000000000) := by norm_num
    rw [if_neg hcond]
    simp only [Except.ok.injEq, RotatedSteelPlate.mk.injEq, resolveDefMethod]
    norm_num [atan2_zero_one]
    all_goals first
      | rfl
      | ring
  · rfl
  · show t * L ^ 3 / 12 * Real.sin 0 ^ 2 + L * t ^ 3 / 12 * Real.cos 0 ^ 2 =
      SteelPlate.inertia_x_local ⟨L, t, 0, 0⟩
    rw [Real.sin_zero, Real.cos_zero]
    unfold SteelPlate.inertia_x_local
    ring
  · show t * L ^ 3 / 12 * Real.cos 0 ^ 2 + L * t ^ 3 / 12 * Real.sin 0 ^ 2 =
      SteelPlate.inertia_y_local ⟨L, t, 0, 0⟩
    rw [Real.sin_zero, Real.cos_zero]
    unfold SteelPlate.inertia_y_local
    ring

/-- Witness for C9 at L = 2, t = 1, p1 = (0, 0). -/
theorem C9_rotated_theta_zero_witness :
    (0 : ℝ) < 2 ∧ (0 : ℝ) < 1 ∧
    ∃ rp : RotatedSteelPlate ℝ,
      RotatedSteelPlate.mk? 1 (0, 0) none (some (1, 0)) (some 2) none =
        Except.ok rp ∧ rp.area = SteelPlate.area ⟨2, 1, 0, 0⟩ := by
  refine ⟨by norm_num, by norm_num, ?_⟩
  obtain ⟨rp, hok, _, harea, _, _⟩ :=
    C9_rotated_theta_zero 2 1 (0, 0) (by norm_num) (by norm_num)
  exact ⟨rp, hok, harea⟩

/-- Claim C10: when p1 and p2 are both supplied, simultaneously supplied
vector and length arguments are ignored entirely (the two calls produce
identical results for every input), and with a positive thickness and
non-coincident points the construction succeeds and returns the plate
determined by p1 and p2 alone: endpoints p1 and p2, length norm2 (p2 -
p1), unit direction (p2 - p1) / L, and center at the midpoint. -/
theorem C10_vector_length_ignored (t : ℝ) (p1 p2 v : ℝ × ℝ) (l : ℝ)
    (dm : Option String) :
    RotatedSteelPlate.mk? t p1 (some p2) (some v) (some l) dm =
      RotatedSteelPlate.mk? t p1 (some p2) none none dm ∧
    (0 < t → ¬ norm2 (p2.1 - p1.1, p2.2 - p1.2) < 1 / 1000000000 →
      ∃ rp : RotatedSteelPlate ℝ,
        RotatedSteelPlate.mk? t p1 (some p2) (some v) (some l) dm =
          Except.ok rp ∧
        rp.p1 = p1 ∧ rp.p2 = p2 ∧
        rp.L = norm2 (p2.1 - p1.1, p2.2 - p1.2) ∧
        rp.u_dir = ((p2.1 - p1.1) / rp.L, (p2.2 - p1.2) / rp.L) ∧
        rp.cg_x = (p1.1 + p2.1) / 2 ∧ rp.cg_y = (p1.2 + p2.2) / 2) := by
  constructor
  · rfl
  · intro ht hL
    unfold RotatedSteelPlate.mk?
    rw [if_neg (not_le.mpr ht)]
    show (∃ rp, (if norm2 (p2.1 - p1.1, p2.2 - p1.2) < 1 / 1000000000
        then _ else _) = Except.ok rp ∧ _)
    rw [if_neg hL]
    exact ⟨_, rfl, rfl, rfl, rfl, rfl, rfl, rfl⟩

/-- Witness for C10 at t = 1, p1 = (0, 0), p2 = (1, 0) with inconsistent
vector (5, 7) and length 99. -/
theorem C10_vector_length_ignored_witness :
    (0 : ℝ) < 1 ∧
    ∃ rp : RotatedSteelPlate ℝ,
      RotatedSteelPlate.mk? 1 (0, 0) (some (1, 0)) (some (5, 7)) (some 99)
          none = Except.ok rp ∧ rp.p2 = (1, 0) := by
  have hn : norm2 ((1 : ℝ) - 0, (0 : ℝ) - 0) = 1 := by
    unfold norm2
    norm_num
  have hL : ¬ norm2 (((1 : ℝ), (0 : ℝ)).1 - ((0 : ℝ), (0 : ℝ)).1,
      ((1 : ℝ), (0 : ℝ)).2 - ((0 : ℝ), (0 : ℝ)).2) < 1 / 1000000000 := by
    simp only []
    rw [show (((1 : ℝ), (0 : ℝ)).1 - ((0 : ℝ), (0 : ℝ)).1,
        ((1 : ℝ), (0 : ℝ)).2 - ((0 : ℝ), (0 : ℝ)).2) =
        ((1 : ℝ) - 0, (0 : ℝ) - 0) from rfl, hn]
    norm_num
  obtain ⟨rp, hok, _, hp2, _⟩ :=
    (C10_vector_length_ignored 1 (0, 0) (1, 0) (5, 7) 99 none).2
      (by norm_num) hL
  exact ⟨by norm_num, rp, hok, hp2⟩

end Prontuario
